import Mathlib

/-!
Shallow embedding of the search-agent repository (backend/app and
backend/websearch_app.py) and proofs about its orchestration contract.

The remote model gateway (OpenAI Agents SDK `Runner.run_sync`) is modelled
as an oracle `Env : Nat → GwOutcome` giving the outcome of the n-th gateway
invocation of the process, together with an explicit invocation counter and
an explicit trace of issued calls. The mutable `WebSearchTool` configuration
shared by all requests is modelled as explicit state `AgentState`.
-/

namespace SearchAgent

/-- An exception raised by a gateway invocation: its message (`str(e)`) and
the name of its Python class (`type(e).__name__`). -/
structure Exc where
  msg : String
  typeName : String
deriving Repr, DecidableEq

/-- Outcome of one gateway invocation: the final output text, or a raised
exception. -/
inductive GwOutcome where
  | ok (text : String)
  | raise (e : Exc)
deriving Repr, DecidableEq

/-- The gateway oracle: outcome of the n-th gateway invocation (0-based,
counted process-wide). -/
def Env : Type := Nat → GwOutcome

/-- Record of one issued gateway invocation: the prompt, the names of the
tools declared on the agent used, and the shared web-search tool
`search_context_size` at call time. -/
structure GwCall where
  prompt : String
  tools : List String
  contextSize : String
deriving Repr, DecidableEq

/-- Mutable state of `OpenAISearchAgent`: `self.web_search_tool.search_context_size`
(`toolCtx`) and `self.search_config.search_context_size` (`defaultCtx`). -/
structure AgentState where
  toolCtx : String
  defaultCtx : String
deriving Repr, DecidableEq

/-- JSON value, for rendering response bodies. -/
inductive Value where
  | vNull
  | vBool (b : Bool)
  | vStr (s : String)
  | vNat (n : Nat)
  | vDict (entries : List (String × Value))

/-- Renders an optional string the way pydantic or FastAPI serializes it:
`null` for `None`. -/
def optStrV : Option String → Value
  | some s => .vStr s
  | none => .vNull

/-- Lowercase hexadecimal digit, as used by `json.dumps` escapes. -/
def hexDigit (n : Nat) : Char :=
  if n < 10 then Char.ofNat (48 + n) else Char.ofNat (87 + n)

/-- Four lowercase hexadecimal digits. -/
def hex4 (n : Nat) : String :=
  String.mk [hexDigit (n / 4096 % 16), hexDigit (n / 256 % 16),
    hexDigit (n / 16 % 16), hexDigit (n % 16)]

/-- Escape of one character inside a JSON string, following `json.dumps`
with its default `ensure_ascii=True` (named escapes, `\uXXXX` for other
control and non-ASCII characters, surrogate pairs beyond the BMP). -/
def jsonEscapeChar (c : Char) : String :=
  if c = '\\' then "\\\\"
  else if c = '\"' then "\\\""
  else if c = '\n' then "\\n"
  else if c = '\t' then "\\t"
  else if c = '\r' then "\\r"
  else if c = '\x08' then "\\b"
  else if c = '\x0c' then "\\f"
  else if c.toNat < 32 ∨ c.toNat > 126 then
    if c.toNat < 65536 then "\\u" ++ hex4 c.toNat
    else
      "\\u" ++ hex4 (55296 + (c.toNat - 65536) / 1024) ++
        "\\u" ++ hex4 (56320 + (c.toNat - 65536) % 1024)
  else String.singleton c

/-- JSON escaping of a whole string. -/
def jsonEscape (s : String) : String := String.join (s.data.map jsonEscapeChar)

/-- A JSON string literal. -/
def jsonStr (s : String) : String := "\"" ++ jsonEscape s ++ "\""

/-- Rendering of one two-field dict `\x7b"query": p.1, key2: p.2\x7d` as
`json.dumps` prints it at `indent=2` inside a list. -/
def jsonDictEntry (key2 : String) (p : String × String) : String :=
  "\x7b\n    " ++ jsonStr "query" ++ ": " ++ jsonStr p.1 ++ ",\n    " ++
    jsonStr key2 ++ ": " ++ jsonStr p.2 ++ "\n  \x7d"

/-- Embeds `json.dumps(rs, indent=2)` for a list of dicts with keys
`"query"` and `key2`, in insertion order. The empty list prints as `[]`. -/
def jsonDumpsIndent2 (key2 : String) (rs : List (String × String)) : String :=
  match rs with
  | [] => "[]"
  | _ => "[\n  " ++ String.intercalate ",\n  " (rs.map (jsonDictEntry key2)) ++ "\n]"

namespace Agent

/-- Result dict of `OpenAISearchAgent.search`: the success dict carries the
query, the response text and the metadata context size
(`context_size or self.search_config.search_context_size`); the failure
dict carries the query, `str(e)` and `type(e).__name__`. -/
inductive SearchResult where
  | success (query response metaCtx : String)
  | failure (query error error_type : String)
deriving Repr, DecidableEq

/-- Embeds `OpenAISearchAgent.search` (openai_agent.py lines 96 to 137):
reads the current tool context size, overwrites it when an override is
given, issues one gateway call, restores the saved value on success, and
converts a raised exception into a failure dict. The restore statement
sits inside the `try` after the gateway call, so it does not run when the
call raises. -/
def search (env : Env) (k : Nat) (st : AgentState) (query : String)
    (context_size : Option String) :
    SearchResult × AgentState × Nat × List GwCall :=
  let original_context_size := st.toolCtx
  let st1 : AgentState :=
    match context_size with
    | some c => { st with toolCtx := c }
    | none => st
  let call : GwCall := ⟨query, ["WebSearchTool"], st1.toolCtx⟩
  match env k with
  | .ok text =>
      let st2 : AgentState :=
        match context_size with
        | some _ => { st1 with toolCtx := original_context_size }
        | none => st1
      (.success query text (context_size.getD st.defaultCtx), st2, k + 1, [call])
  | .raise e => (.failure query e.msg e.typeName, st1, k + 1, [call])

/-- One entry of `conversation_history`: a dict whose `role` and `content`
keys may each be absent (`msg.get` supplies defaults). -/
structure Turn where
  role : Option String := none
  content : Option String := none
deriving Repr, DecidableEq

/-- Embeds the comprehension element `f"\x7bmsg.get('role', 'user')\x7d: \x7bmsg.get('content', '')\x7d"`. -/
def turnLine (t : Turn) : String := t.role.getD "user" ++ ": " ++ t.content.getD ""

/-- Embeds `"\n".join(...)` over the formatted history lines. -/
def historyContext (h : List Turn) : String :=
  String.intercalate "\n" (h.map turnLine)

/-- Embeds the `full_message` construction of `chat`: a truthy
(non-`None`, non-empty) history is serialized and prefixed to the message;
otherwise the message is used verbatim. -/
def chatPrompt (conversation_history : Option (List Turn)) (message : String) : String :=
  match conversation_history with
  | some h =>
      if h.isEmpty then message
      else "Conversation history:\n" ++ historyContext h ++
        "\n\nCurrent message: " ++ message
  | none => message

/-- Result dict of `OpenAISearchAgent.chat`. -/
inductive ChatResult where
  | success (message response : String) (search_enabled : Bool)
  | failure (message error error_type : String)
deriving Repr, DecidableEq

/-- Embeds `OpenAISearchAgent.chat` (openai_agent.py lines 139 to 199):
with `enable_search` it uses `self.agent` (tools `[WebSearchTool]`),
otherwise a fresh `Agent` constructed without a `tools` argument (empty
toolset); builds `full_message` from the optional history; issues one
gateway call and wraps a raised exception into the failure dict. -/
def chat (env : Env) (k : Nat) (st : AgentState) (message : String)
    (conversation_history : Option (List Turn)) (enable_search : Bool) :
    ChatResult × Nat × List GwCall :=
  let tools : List String := if enable_search then ["WebSearchTool"] else []
  let full_message := chatPrompt conversation_history message
  let call : GwCall := ⟨full_message, tools, st.toolCtx⟩
  match env k with
  | .ok text => (.success message text enable_search, k + 1, [call])
  | .raise e => (.failure message e.msg e.typeName, k + 1, [call])

/-- Embeds the sequential per-query loop shared by `multi_query_search`
(`await self.search(query)`, no context override) and `research_topic`
(`await self.search(query, context_size=context_size)`): folds `search`
over the queries in input order, threading state and counter, retaining
only the `(query, response)` pairs of successful results. -/
def searchLoop (env : Env) (ctx : Option String) :
    Nat → AgentState → List String →
      List (String × String) × AgentState × Nat × List GwCall
  | k, st, [] => ([], st, k, [])
  | k, st, q :: rest =>
    let s := search env k st q ctx
    let s2 := searchLoop env ctx s.2.2.1 s.2.1 rest
    match s.1 with
    | .success query response _ =>
        ((query, response) :: s2.1, s2.2.1, s2.2.2.1, s.2.2.2 ++ s2.2.2.2)
    | .failure _ _ _ => (s2.1, s2.2.1, s2.2.2.1, s.2.2.2 ++ s2.2.2.2)

/-- Specification-side description of what the loop retains: the
`(query, gateway output)` pairs of the entries whose gateway invocation
succeeded, in input order, with one invocation per entry starting at
counter `k`. -/
def successfulPairs (env : Env) : Nat → List String → List (String × String)
  | _, [] => []
  | k, q :: rest =>
    match env k with
    | .ok text => (q, text) :: successfulPairs env (k + 1) rest
    | .raise _ => successfulPairs env (k + 1) rest

/-- Embeds the `synthesis_prompt` f-string of `multi_query_search`
(openai_agent.py lines 222 to 231), with the retained results serialized
by `json.dumps(results, indent=2)`. -/
def synthesis_prompt (results : List (String × String)) : String :=
  "Based on the following search results for multiple queries,\n            provide a comprehensive synthesis that addresses all queries:\n            \n            " ++
    jsonDumpsIndent2 "response" results ++
    "\n            \n            Provide a well-organized response that:\n            1. Addresses each query\n            2. Identifies common themes and connections\n            3. Highlights any contradictions or different perspectives\n            4. Provides a cohesive summary"

/-- Result dict of `OpenAISearchAgent.multi_query_search`. -/
inductive MQResult where
  | success (queries : List String) (individual_results : List (String × String))
      (synthesis : String) (num_queries : Nat)
  | failure (queries : List String) (error error_type : String)
deriving Repr, DecidableEq

/-- Embeds `OpenAISearchAgent.multi_query_search` (openai_agent.py lines
201 to 251): runs `search` once per query sequentially, keeps the
successful `(query, response)` pairs, then issues one synthesis gateway
call on `self.agent` with those pairs serialized into the prompt.
`self.search` never raises, so only the synthesis invocation can reach the
outer `except`. -/
def multi_query_search (env : Env) (k : Nat) (st : AgentState)
    (queries : List String) : MQResult × AgentState × Nat × List GwCall :=
  let loop := searchLoop env none k st queries
  let prompt := synthesis_prompt loop.1
  let call : GwCall := ⟨prompt, ["WebSearchTool"], loop.2.1.toolCtx⟩
  match env loop.2.2.1 with
  | .ok text =>
      (.success queries loop.1 text queries.length,
        loop.2.1, loop.2.2.1 + 1, loop.2.2.2 ++ [call])
  | .raise e =>
      (.failure queries e.msg e.typeName,
        loop.2.1, loop.2.2.1 + 1, loop.2.2.2 ++ [call])

/-- Research depth tier. -/
inductive Depth where
  | basic
  | detailed
  | comprehensive
deriving Repr, DecidableEq

/-- Embeds the `context_map` dict of `research_topic`. -/
def context_map : Depth → String
  | .basic => "low"
  | .detailed => "medium"
  | .comprehensive => "high"

/-- Embeds the inline conditional
`3 if depth == 'basic' else 5 if depth == 'detailed' else 7` interpolated
into the query-generation prompt. -/
def queryCount : Depth → Nat
  | .basic => 3
  | .detailed => 5
  | .comprehensive => 7

/-- Embeds the `query_generation_prompt` f-string of `research_topic`
(openai_agent.py lines 274 to 284). -/
def query_generation_prompt (depth : Depth) (topic : String) : String :=
  "Generate " ++ toString (queryCount depth) ++
    " \n            specific search queries to thoroughly research the topic: \"" ++
    topic ++
    "\".\n            \n            The queries should cover:\n            - Overview and definition\n            - Current state and recent developments\n            - Key applications or implications\n            - Expert opinions or authoritative sources\n            - Future trends or predictions (if applicable)\n            \n            Return only the queries, one per line."

/-- Embeds Python `str.split('\n')` on the character list: splits at every
newline, keeping empty segments, so the empty string yields one empty
segment. -/
def splitNl : List Char → List (List Char)
  | [] => [[]]
  | c :: rest =>
    match splitNl rest with
    | [] => [[]]
    | seg :: segs =>
      if c = '\n' then [] :: seg :: segs else (c :: seg) :: segs

/-- Whitespace characters stripped by Python `str.strip()` (the ASCII
ones). -/
def isPySpace (c : Char) : Bool :=
  c == ' ' || c == '\t' || c == '\n' || c == '\r' || c == '\x0b' || c == '\x0c'

/-- Embeds Python `str.strip()`: drops leading and trailing whitespace. -/
def pyStrip (s : String) : String :=
  String.mk (((s.data.dropWhile isPySpace).reverse.dropWhile isPySpace).reverse)

/-- Embeds the query parsing of `research_topic`:
`[q.strip() for q in query_result.final_output.split('\n') if q.strip()]`
(a stripped segment is kept iff it is non-empty, the truthiness test). -/
def parseQueries (output : String) : List String :=
  (((splitNl output.data).map (fun l => pyStrip (String.mk l)))).filter
    (fun q => q ≠ "")

/-- Embeds the `report_prompt` f-string of `research_topic`
(openai_agent.py lines 310 to 322), with the retained findings serialized
by `json.dumps(search_results, indent=2)` (keys `query` and `findings`). -/
def report_prompt (topic : String) (search_results : List (String × String)) : String :=
  "Based on the following research findings about \"" ++ topic ++
    "\",\n            create a comprehensive research report:\n            \n            " ++
    jsonDumpsIndent2 "findings" search_results ++
    "\n            \n            Structure your report with:\n            1. Executive Summary\n            2. Detailed Findings (organized by theme)\n            3. Key Insights and Implications\n            4. Sources and References\n            5. Conclusion\n            \n            Make it thorough, well-organized, and properly cited."

/-- Result dict of `OpenAISearchAgent.research_topic`. -/
inductive ResearchResult where
  | success (topic : String) (depth : Depth) (research_queries : List String)
      (findings : List (String × String)) (report : String)
      (context_size : String) (num_queries : Nat)
  | failure (topic : String) (error error_type : String)
deriving Repr, DecidableEq

/-- Embeds `OpenAISearchAgent.research_topic` (openai_agent.py lines 253
to 345): maps the depth to a context tier and a query count, issues one
query-generation gateway call on a fresh tool-less `Agent`, parses its
output into queries, runs `search` per query at the mapped tier retaining
successes, and issues one report gateway call on `self.agent`. The
query-generation and report invocations are guarded only by the outer
`try`, whose `except` returns the failure dict for the whole operation. -/
def research_topic (env : Env) (k : Nat) (st : AgentState) (topic : String)
    (depth : Depth) : ResearchResult × AgentState × Nat × List GwCall :=
  let context_size := context_map depth
  let qcall : GwCall := ⟨query_generation_prompt depth topic, [], st.toolCtx⟩
  match env k with
  | .raise e => (.failure topic e.msg e.typeName, st, k + 1, [qcall])
  | .ok output =>
    let queries := parseQueries output
    let loop := searchLoop env (some context_size) (k + 1) st queries
    let rcall : GwCall := ⟨report_prompt topic loop.1, ["WebSearchTool"], loop.2.1.toolCtx⟩
    match env loop.2.2.1 with
    | .raise e =>
        (.failure topic e.msg e.typeName,
          loop.2.1, loop.2.2.1 + 1, qcall :: (loop.2.2.2 ++ [rcall]))
    | .ok rep =>
        (.success topic depth queries loop.1 rep context_size queries.length,
          loop.2.1, loop.2.2.1 + 1, qcall :: (loop.2.2.2 ++ [rcall]))

end Agent

namespace Routes

/-- Embeds the pydantic model `SearchRequest` of routes.py: `query`
required, `num_results` defaulting to 5, optional `context_size`. -/
structure SearchRequest where
  query : String
  num_results : Nat := 5
  context_size : Option String := none
deriving Repr, DecidableEq

/-- Embeds the pydantic model `ChatRequest` of routes.py. -/
structure ChatRequest where
  message : String
  conversation_history : Option (List Agent.Turn) := none
  enable_search : Bool := true
deriving Repr, DecidableEq

/-- Embeds the pydantic model `MultiQueryRequest` of routes.py: the
`queries` field is declared `List[str] = Field(...)` with no length
constraint. -/
structure MultiQueryRequest where
  queries : List String
deriving Repr, DecidableEq

/-- Embeds pydantic validation of a `MultiQueryRequest` body: the
`queries` field is required (a missing field is a 422 validation error),
and any list of strings is accepted — no non-emptiness constraint is
declared on the field. -/
def MultiQueryRequest.validate : Option (List String) → Option MultiQueryRequest
  | some qs => some ⟨qs⟩
  | none => none

/-- Embeds the pydantic response model `SearchResponse` of routes.py
(lines 57 to 64): it declares exactly the fields `success`, `query`,
`response`, `metadata`, `error`. No `error_type` field is declared. -/
structure SearchResponse where
  success : Bool
  query : String
  response : Option String := none
  metadata : Option (List (String × Value)) := none
  error : Option String := none

/-- Metadata dict of a successful `search` result
(openai_agent.py lines 124 to 129). -/
def searchMetadata (metaCtx : String) : List (String × Value) :=
  [("model", .vStr "gpt-4o"), ("search_context_size", .vStr metaCtx),
   ("tokens_used", .vNull), ("tool", .vStr "WebSearchTool")]

/-- Embeds `SearchResponse(**result)` in the POST /search handler: pydantic
populates the declared fields from the matching dict keys and, under its
default `extra` behaviour, ignores keys with no declared field — in
particular the `error_type` key of a failure dict. -/
def SearchResponse.ofResult : Agent.SearchResult → SearchResponse
  | .success q resp metaCtx =>
      { success := true, query := q, response := some resp,
        metadata := some (searchMetadata metaCtx) }
  | .failure q err _etype => { success := false, query := q, error := some err }

/-- Serialized JSON body of a `SearchResponse` as FastAPI renders the
response model: every declared field, `None` as `null`. -/
def SearchResponse.body (r : SearchResponse) : List (String × Value) :=
  [("success", .vBool r.success), ("query", .vStr r.query),
   ("response", optStrV r.response),
   ("metadata", match r.metadata with | some d => .vDict d | none => .vNull),
   ("error", optStrV r.error)]

/-- Embeds the pydantic response model `ChatResponse` of routes.py (lines
66 to 72): fields `success`, `message`, `response`, `conversation_id`,
`error`. No `error_type` and no `metadata` field is declared. -/
structure ChatResponse where
  success : Bool
  message : String
  response : Option String := none
  conversation_id : Option String := none
  error : Option String := none

/-- Embeds `ChatResponse(**result)` in the POST /chat handler: declared
fields are populated from matching keys (the agent always returns
`conversation_id: None` on success); the `metadata` and `error_type` keys
have no declared field and are ignored. -/
def ChatResponse.ofResult : Agent.ChatResult → ChatResponse
  | .success m resp _enabled =>
      { success := true, message := m, response := some resp, conversation_id := none }
  | .failure m err _etype => { success := false, message := m, error := some err }

/-- Serialized JSON body of a `ChatResponse`. -/
def ChatResponse.body (r : ChatResponse) : List (String × Value) :=
  [("success", .vBool r.success), ("message", .vStr r.message),
   ("response", optStrV r.response),
   ("conversation_id", optStrV r.conversation_id),
   ("error", optStrV r.error)]

/-- Embeds the POST /search handler of routes.py: `agent_provider` is the
constant `"openai-websearch"`, so the handler calls
`search_agent.search(request.query, context_size=request.context_size)`
and returns `SearchResponse(**result)`. -/
def search (env : Env) (k : Nat) (st : AgentState) (req : SearchRequest) :
    SearchResponse × AgentState × Nat × List GwCall :=
  let r := Agent.search env k st req.query req.context_size
  (SearchResponse.ofResult r.1, r.2.1, r.2.2.1, r.2.2.2)

/-- Embeds the POST /chat handler of routes.py: calls
`search_agent.chat(request.message, request.conversation_history,
enable_search=request.enable_search)` and returns `ChatResponse(**result)`.
`chat` does not touch the shared tool state. -/
def chat (env : Env) (k : Nat) (st : AgentState) (req : ChatRequest) :
    ChatResponse × AgentState × Nat × List GwCall :=
  let r := Agent.chat env k st req.message req.conversation_history req.enable_search
  (ChatResponse.ofResult r.1, st, r.2.1, r.2.2)

/-- Embeds the POST /search/multi-query handler of routes.py: the provider
guard passes, the result dict of `multi_query_search` is returned as-is
(no response model). -/
def multi_query_search (env : Env) (k : Nat) (st : AgentState)
    (req : MultiQueryRequest) : Agent.MQResult × AgentState × Nat × List GwCall :=
  Agent.multi_query_search env k st req.queries

end Routes

namespace WApp

/-- A tool on the minimal-app agent: `WebSearchTool(search_context_size=c)`. -/
inductive WTool where
  | webSearch (search_context_size : String)
deriving Repr, DecidableEq

/-- Process-wide state of websearch_app.py: the `tools` list of the module
level `agent`. -/
structure WAppState where
  tools : List WTool
deriving Repr, DecidableEq

/-- Embeds `startup_event` of websearch_app.py: the agent starts with
`[WebSearchTool(search_context_size="medium")]`. -/
def initState : WAppState := ⟨[.webSearch "medium"]⟩

/-- Embeds the pydantic model `SearchRequest` of websearch_app.py:
`context_size` defaults to `"medium"` when omitted; an explicit JSON
`null` yields `None`. -/
structure WSearchRequest where
  query : String
  context_size : Option String := some "medium"
deriving Repr, DecidableEq

/-- Record of one gateway invocation of the minimal app: the prompt and the
tools of the agent at call time. -/
structure WCall where
  prompt : String
  tools : List WTool
deriving Repr, DecidableEq

/-- Embeds the pydantic response model `SearchResponse` of
websearch_app.py. -/
structure WSearchResponse where
  success : Bool
  query : String
  response : Option String := none
  metadata : Option (List (String × Value)) := none
  error : Option String := none

/-- Embeds the POST /search handler of websearch_app.py (lines 118 to
157): when `request.context_size` is truthy and differs from `"medium"`,
the handler replaces `agent.tools` with a fresh `WebSearchTool` at that
size (and never restores it); it then runs the agent on the query and
wraps an exception into a `success=False` response (with no `error_type`).
-/
def search (env : Env) (k : Nat) (st : WAppState) (req : WSearchRequest) :
    WSearchResponse × WAppState × Nat × List WCall :=
  let st1 : WAppState :=
    match req.context_size with
    | some c => if c ≠ "medium" then ⟨[.webSearch c]⟩ else st
    | none => st
  let call : WCall := ⟨req.query, st1.tools⟩
  match env k with
  | .ok text =>
      ({ success := true, query := req.query, response := some text,
         metadata := some [("model", .vStr "gpt-4o"),
           ("context_size", optStrV req.context_size),
           ("tool", .vStr "WebSearchTool")] },
        st1, k + 1, [call])
  | .raise e =>
      ({ success := false, query := req.query, error := some e.msg },
        st1, k + 1, [call])

/-- Embeds the POST /chat handler of websearch_app.py (lines 160 to 188):
runs the module-level agent as-is on the message. -/
def chat (env : Env) (k : Nat) (st : WAppState) (message : String) :
    (Bool × Option String × Option String) × WAppState × Nat × List WCall :=
  let call : WCall := ⟨message, st.tools⟩
  match env k with
  | .ok text => ((true, some text, none), st, k + 1, [call])
  | .raise e => ((false, none, some e.msg), st, k + 1, [call])

end WApp

/-! Helper lemmas about the sequential search loop. -/

/-- The loop retains exactly the successful `(query, response)` pairs, in
input order. -/
theorem searchLoop_pairs (env : Env) (ctx : Option String) (queries : List String) :
    ∀ (k : Nat) (st : AgentState),
      (Agent.searchLoop env ctx k st queries).1 = Agent.successfulPairs env k queries := by
  induction queries with
  | nil => intro k st; rfl
  | cons q rest ih =>
    intro k st
    cases he : env k <;> cases ctx <;>
      simp [Agent.searchLoop, Agent.search, Agent.successfulPairs, he, ih]

/-- The loop advances the gateway counter by one per query. -/
theorem searchLoop_counter (env : Env) (ctx : Option String) (queries : List String) :
    ∀ (k : Nat) (st : AgentState),
      (Agent.searchLoop env ctx k st queries).2.2.1 = k + queries.length := by
  induction queries with
  | nil => intro k st; rfl
  | cons q rest ih =>
    intro k st
    cases he : env k <;> cases ctx <;>
      simp [Agent.searchLoop, Agent.search, he, ih] <;> omega

/-- Without a context override the loop leaves the shared tool state
unchanged. -/
theorem searchLoop_state_none (env : Env) (queries : List String) :
    ∀ (k : Nat) (st : AgentState),
      (Agent.searchLoop env none k st queries).2.1 = st := by
  induction queries with
  | nil => intro k st; rfl
  | cons q rest ih =>
    intro k st
    cases he : env k <;> simp [Agent.searchLoop, Agent.search, he, ih]

/-- Without a context override the loop issues one gateway call per query,
in input order, each declaring the web-search tool at the current shared
context size. -/
theorem searchLoop_trace_none (env : Env) (queries : List String) :
    ∀ (k : Nat) (st : AgentState),
      (Agent.searchLoop env none k st queries).2.2.2 =
        queries.map (fun q => ⟨q, ["WebSearchTool"], st.toolCtx⟩) := by
  induction queries with
  | nil => intro k st; rfl
  | cons q rest ih =>
    intro k st
    cases he : env k <;> simp [Agent.searchLoop, Agent.search, he, ih]

/-- With a context override the loop issues one gateway call per query, in
input order, each at the overridden context size. -/
theorem searchLoop_trace_some (env : Env) (c : String) (queries : List String) :
    ∀ (k : Nat) (st : AgentState),
      (Agent.searchLoop env (some c) k st queries).2.2.2 =
        queries.map (fun q => ⟨q, ["WebSearchTool"], c⟩) := by
  induction queries with
  | nil => intro k st; rfl
  | cons q rest ih =>
    intro k st
    cases he : env k <;> simp [Agent.searchLoop, Agent.search, he, ih]

/-! Shared concrete inputs for witnesses and counterexamples. -/

/-- Gateway oracle whose every invocation succeeds with output "ok". -/
def envOk : Env := fun _ => .ok "ok"

/-- Gateway oracle whose every invocation raises RuntimeError("boom"). -/
def envBoom : Env := fun _ => .raise ⟨"boom", "RuntimeError"⟩

/-- Gateway oracle raising on the first invocation and succeeding with
output "ok" afterwards. -/
def envMix : Env := fun n => if n = 0 then .raise ⟨"boom", "RuntimeError"⟩ else .ok "ok"

/-- Gateway oracle succeeding with output "ok" on the first invocation and
raising RuntimeError("boom") afterwards. -/
def envOkThenBoom : Env :=
  fun n => if n = 0 then .ok "ok" else .raise ⟨"boom", "RuntimeError"⟩

/-- Agent state with the default medium context size. -/
def st0 : AgentState := ⟨"medium", "medium"⟩

/-- C1: for every non-empty queries list, `multi_query_search` invokes
`search` exactly once per entry, sequentially in input order (one gateway
call per query, prompts in input order), then issues exactly one synthesis
gateway call, whose prompt serializes exactly the `(query, response)`
pairs of the successful entries in input order (failed entries dropped);
the gateway counter advances by `queries.length + 1`. -/
theorem multi_query_search_contract (env : Env) (k : Nat) (st : AgentState)
    (queries : List String) (hne : queries ≠ []) :
    (Agent.multi_query_search env k st queries).2.2.2 =
      queries.map (fun q => ⟨q, ["WebSearchTool"], st.toolCtx⟩) ++
        [⟨Agent.synthesis_prompt (Agent.successfulPairs env k queries),
          ["WebSearchTool"], st.toolCtx⟩] ∧
    (Agent.multi_query_search env k st queries).2.2.1 = k + queries.length + 1 := by
  have hp := searchLoop_pairs env none queries k st
  have hs := searchLoop_state_none env queries k st
  have hk := searchLoop_counter env none queries k st
  have ht := searchLoop_trace_none env queries k st
  unfold Agent.multi_query_search
  simp only [hp, hs, hk, ht]
  cases he : env (k + queries.length) <;> simp [he]

/-- C1 witness: concrete evaluation on two queries against the
all-succeeding oracle. -/
theorem multi_query_search_contract_witness :
    (Agent.multi_query_search envOk 0 st0 ["a", "b"]).2.2.2 =
      [⟨"a", ["WebSearchTool"], "medium"⟩, ⟨"b", ["WebSearchTool"], "medium"⟩,
       ⟨Agent.synthesis_prompt [("a", "ok"), ("b", "ok")],
         ["WebSearchTool"], "medium"⟩] ∧
    (Agent.multi_query_search envOk 0 st0 ["a", "b"]).2.2.1 = 3 := by
  have h := multi_query_search_contract envOk 0 st0 ["a", "b"] (by simp)
  simpa [Agent.successfulPairs, envOk, st0] using h

/-- C2: `research_topic` maps depth basic to 3 requested queries and the
low context tier, detailed to 5 and medium, comprehensive to 7 and high;
the query-generation gateway call uses the prompt asking for
`queryCount depth` queries, and every resulting `search` gateway call is
issued at context size `context_map depth`. -/
theorem research_topic_depth_tiering (env : Env) (k : Nat) (st : AgentState)
    (topic : String) (depth : Agent.Depth) (output : String)
    (hok : env k = .ok output) :
    (Agent.queryCount .basic = 3 ∧ Agent.context_map .basic = "low") ∧
    (Agent.queryCount .detailed = 5 ∧ Agent.context_map .detailed = "medium") ∧
    (Agent.queryCount .comprehensive = 7 ∧ Agent.context_map .comprehensive = "high") ∧
    Agent.query_generation_prompt depth topic =
      "Generate " ++ toString (Agent.queryCount depth) ++
        " \n            specific search queries to thoroughly research the topic: \"" ++
        topic ++
        "\".\n            \n            The queries should cover:\n            - Overview and definition\n            - Current state and recent developments\n            - Key applications or implications\n            - Expert opinions or authoritative sources\n            - Future trends or predictions (if applicable)\n            \n            Return only the queries, one per line." ∧
    (∃ rcall, (Agent.research_topic env k st topic depth).2.2.2 =
      ⟨Agent.query_generation_prompt depth topic, [], st.toolCtx⟩ ::
        ((Agent.parseQueries output).map
            (fun q => ⟨q, ["WebSearchTool"], Agent.context_map depth⟩) ++ [rcall])) := by
  refine ⟨⟨rfl, rfl⟩, ⟨rfl, rfl⟩, ⟨rfl, rfl⟩, rfl, ?_⟩
  have ht := searchLoop_trace_some env (Agent.context_map depth)
    (Agent.parseQueries output) (k + 1) st
  unfold Agent.research_topic
  simp only [hok]
  refine ⟨⟨Agent.report_prompt topic
      (Agent.searchLoop env (some (Agent.context_map depth)) (k + 1) st
        (Agent.parseQueries output)).1, ["WebSearchTool"],
      (Agent.searchLoop env (some (Agent.context_map depth)) (k + 1) st
        (Agent.parseQueries output)).2.1.toolCtx⟩, ?_⟩
  cases he : env (Agent.searchLoop env (some (Agent.context_map depth)) (k + 1) st
      (Agent.parseQueries output)).2.2.1 <;> simp [he, ht]

/-- C2 witness: concrete evaluation at depth basic against the
all-succeeding oracle (whose query-generation output "ok" parses to the
single query "ok"). -/
theorem research_topic_depth_tiering_witness :
    Agent.queryCount .basic = 3 ∧ Agent.context_map .basic = "low" ∧
    (∃ rcall, (Agent.research_topic envOk 0 st0 "X" .basic).2.2.2 =
      ⟨Agent.query_generation_prompt .basic "X", [], "medium"⟩ ::
        ([⟨"ok", ["WebSearchTool"], "low"⟩] ++ [rcall])) := by
  have h := research_topic_depth_tiering envOk 0 st0 "X" .basic "ok" rfl
  refine ⟨h.1.1, h.1.2, ?_⟩
  obtain ⟨rcall, hr⟩ := h.2.2.2.2
  have hq : Agent.parseQueries "ok" = ["ok"] := by rfl
  exact ⟨rcall, by simpa [hq, st0, Agent.context_map] using hr⟩

/-- C3: when the gateway invocation raises, `search` and `chat` return the
failure dict carrying the exception message as `error` and the exception
type name as `error_type` (non-empty for any Python class name); the
embedding is total, so neither operation propagates the exception. -/
theorem gateway_exception_wrapped (env : Env) (k : Nat) (st : AgentState)
    (query message : String) (cs : Option String)
    (hist : Option (List Agent.Turn)) (es : Bool) (e : Exc)
    (hraise : env k = .raise e) (hnm : e.typeName ≠ "") :
    (Agent.search env k st query cs).1 = .failure query e.msg e.typeName ∧
    (Agent.chat env k st message hist es).1 = .failure message e.msg e.typeName ∧
    e.typeName ≠ "" := by
  refine ⟨?_, ?_, hnm⟩ <;> simp [Agent.search, Agent.chat, hraise]

/-- C3 witness: concrete evaluation against the always-raising oracle. -/
theorem gateway_exception_wrapped_witness :
    (Agent.search envBoom 0 st0 "q" none).1 = .failure "q" "boom" "RuntimeError" ∧
    (Agent.chat envBoom 0 st0 "m" none true).1 = .failure "m" "boom" "RuntimeError" ∧
    ("RuntimeError" : String) ≠ "" :=
  gateway_exception_wrapped envBoom 0 st0 "q" "m" none none true
    ⟨"boom", "RuntimeError"⟩ rfl (by simp)

/-- C6 counterexample: with the shared tool at "medium" and an explicit
"high" override, a raising gateway call leaves the shared tool at "high"
when `search` returns, not at its pre-call value "medium". -/
theorem search_context_not_restored_on_raise :
    st0.toolCtx = "medium" ∧
    (Agent.search envBoom 0 st0 "q" (some "high")).2.1.toolCtx = "high" ∧
    ("high" : String) ≠ "medium" :=
  ⟨rfl, rfl, by simp⟩

/-- C6 amended: with an explicit context-size override, the shared
web-search tool context equals its pre-call value when `search` returns
only if the gateway call succeeded; when the call raises, the override is
left in place. -/
theorem search_context_restore (env : Env) (k : Nat) (st : AgentState)
    (q c : String) :
    (∀ t, env k = .ok t →
      (Agent.search env k st q (some c)).2.1.toolCtx = st.toolCtx) ∧
    (∀ e, env k = .raise e →
      (Agent.search env k st q (some c)).2.1.toolCtx = c) := by
  constructor
  · intro t ht; simp [Agent.search, ht]
  · intro e hee; simp [Agent.search, hee]

/-- C6 amended witness: concrete evaluation on both gateway outcomes. -/
theorem search_context_restore_witness :
    (Agent.search envOk 0 st0 "q" (some "high")).2.1.toolCtx = st0.toolCtx ∧
    (Agent.search envBoom 0 st0 "q" (some "high")).2.1.toolCtx = "high" :=
  ⟨(search_context_restore envOk 0 st0 "q" "high").1 "ok" rfl,
   (search_context_restore envBoom 0 st0 "q" "high").2 ⟨"boom", "RuntimeError"⟩ rfl⟩

/-- C8: with a non-empty history, the chat prompt is the history
serialized as role-colon-content lines joined by newlines, prefixed (with
the fixed header and separator) to the message; with no history (absent or
empty) the prompt is the message verbatim; and on the concrete example the
prompt contains "user: hi" before "Current message: bye". -/
theorem chat_prompt_contract (env : Env) (k : Nat) (st : AgentState)
    (message : String) (hist : List Agent.Turn) (es : Bool) (hne : hist ≠ []) :
    Agent.chatPrompt (some hist) message =
      "Conversation history:\n" ++ Agent.historyContext hist ++
        "\n\nCurrent message: " ++ message ∧
    Agent.chatPrompt none message = message ∧
    Agent.chatPrompt (some []) message = message ∧
    (Agent.chat env k st message (some hist) es).2.2 =
      [⟨Agent.chatPrompt (some hist) message,
        if es then ["WebSearchTool"] else [], st.toolCtx⟩] ∧
    (∃ a b c, Agent.chatPrompt (some [⟨some "user", some "hi"⟩]) "bye" =
      a ++ "user: hi" ++ b ++ "Current message: bye" ++ c) := by
  refine ⟨?_, rfl, rfl, ?_, ⟨"Conversation history:\n", "\n\n", "", by rfl⟩⟩
  · simp [Agent.chatPrompt, hne]
  · cases he : env k <;> simp [Agent.chat, he]

/-- C8 witness: concrete evaluation of the round-trip example. -/
theorem chat_prompt_contract_witness :
    Agent.chatPrompt (some [⟨some "user", some "hi"⟩]) "bye" =
      "Conversation history:\nuser: hi\n\nCurrent message: bye" ∧
    (Agent.chat envOk 0 st0 "bye" (some [⟨some "user", some "hi"⟩]) true).2.2 =
      [⟨"Conversation history:\nuser: hi\n\nCurrent message: bye",
        ["WebSearchTool"], "medium"⟩] := by
  have h := chat_prompt_contract envOk 0 st0 "bye"
    [⟨some "user", some "hi"⟩] true (by simp)
  have hp : Agent.chatPrompt (some [⟨some "user", some "hi"⟩]) "bye" =
      "Conversation history:\nuser: hi\n\nCurrent message: bye" := by
    rw [h.1]; rfl
  refine ⟨hp, ?_⟩
  rw [← hp]
  simpa [st0] using h.2.2.2.1

/-- C9: a `chat` call with `enable_search = false` issues its single
gateway invocation on an agent whose declared toolset is empty — the
web-search capability is not among its tools. -/
theorem chat_disabled_search_toolset (env : Env) (k : Nat) (st : AgentState)
    (message : String) (hist : Option (List Agent.Turn)) :
    (Agent.chat env k st message hist false).2.2 =
      [⟨Agent.chatPrompt hist message, [], st.toolCtx⟩] := by
  cases he : env k <;> simp [Agent.chat, he]

/-- C4 counterexample: a POST /search request whose orchestrator call
returns a failure yields a 200 body carrying success=false and the error
message, but the serialized body has no error_type entry at all: the
SearchResponse model declares no such field. -/
theorem routes_failure_body_lacks_error_type :
    (Routes.search envBoom 0 st0 ⟨"q", 5, none⟩).1.success = false ∧
    (Routes.search envBoom 0 st0 ⟨"q", 5, none⟩).1.error = some "boom" ∧
    (Routes.search envBoom 0 st0 ⟨"q", 5, none⟩).1.body.map Prod.fst =
      ["success", "query", "response", "metadata", "error"] ∧
    "error_type" ∉ (Routes.search envBoom 0 st0 ⟨"q", 5, none⟩).1.body.map Prod.fst := by
  refine ⟨rfl, rfl, rfl, by decide⟩

/-- C4 amended: on an orchestrator failure, the POST /search and POST
/chat 200 bodies carry success=false and the error message, but the
error_type tag is dropped: the SearchResponse and ChatResponse pydantic
models declare no error_type field, so it never appears in the body. -/
theorem routes_failure_body (env : Env) (k : Nat) (st : AgentState)
    (q msg : String) (cs : Option String) (hist : Option (List Agent.Turn))
    (es : Bool) (n : Nat) (e : Exc) (h : env k = .raise e) :
    (Routes.search env k st ⟨q, n, cs⟩).1.success = false ∧
    (Routes.search env k st ⟨q, n, cs⟩).1.error = some e.msg ∧
    "error_type" ∉ (Routes.search env k st ⟨q, n, cs⟩).1.body.map Prod.fst ∧
    (Routes.chat env k st ⟨msg, hist, es⟩).1.success = false ∧
    (Routes.chat env k st ⟨msg, hist, es⟩).1.error = some e.msg ∧
    "error_type" ∉ (Routes.chat env k st ⟨msg, hist, es⟩).1.body.map Prod.fst := by
  refine ⟨?_, ?_, ?_, ?_, ?_, ?_⟩ <;>
    simp [Routes.search, Routes.chat, Agent.search, Agent.chat, h,
      Routes.SearchResponse.ofResult, Routes.ChatResponse.ofResult,
      Routes.SearchResponse.body, Routes.ChatResponse.body]

/-- C4 amended witness: concrete evaluation against the always-raising
oracle. -/
theorem routes_failure_body_witness :
    (Routes.search envBoom 0 st0 ⟨"q2", 5, none⟩).1.error = some "boom" ∧
    (Routes.chat envBoom 0 st0 ⟨"m", none, true⟩).1.error = some "boom" := by
  have h := routes_failure_body envBoom 0 st0 "q2" "m" none none true 5
    ⟨"boom", "RuntimeError"⟩ rfl
  exact ⟨h.2.1, h.2.2.2.2.1⟩

/-- C5 counterexample: an empty queries list passes MultiQueryRequest
validation (no non-emptiness constraint is declared), and the handler then
issues a gateway call: the synthesis invocation fires. -/
theorem empty_queries_not_rejected :
    Routes.MultiQueryRequest.validate (some []) = some ⟨[]⟩ ∧
    (Routes.multi_query_search envOk 0 st0 ⟨[]⟩).2.2.2.length = 1 :=
  ⟨rfl, rfl⟩

/-- C5 amended: an empty queries list is accepted by request validation;
the handler then runs multi_query_search, which issues zero per-query
search calls and exactly one synthesis gateway call whose serialized
evidence list is empty, returning success when that call succeeds. -/
theorem empty_queries_accepted (env : Env) (k : Nat) (st : AgentState)
    (t : String) (hok : env k = .ok t) :
    Routes.MultiQueryRequest.validate (some []) = some ⟨[]⟩ ∧
    (Routes.multi_query_search env k st ⟨[]⟩).2.2.2 =
      [⟨Agent.synthesis_prompt [], ["WebSearchTool"], st.toolCtx⟩] ∧
    (Routes.multi_query_search env k st ⟨[]⟩).1 = .success [] [] t 0 := by
  refine ⟨rfl, ?_, ?_⟩ <;>
    simp [Routes.multi_query_search, Agent.multi_query_search,
      Agent.searchLoop, hok]

/-- C5 amended witness: concrete evaluation against the all-succeeding
oracle. -/
theorem empty_queries_accepted_witness :
    (Routes.multi_query_search envOk 0 st0 ⟨[]⟩).1 = .success [] [] "ok" 0 :=
  (empty_queries_accepted envOk 0 st0 "ok" rfl).2.2

/-- C7 counterexample: in research_topic, a failing query-generation
gateway invocation aborts the whole operation: the result is an overall
failure and no subsequent gateway call (search or report) is issued. -/
theorem research_query_gen_failure_aborts :
    (Agent.research_topic envBoom 0 st0 "X" .basic).1 =
      .failure "X" "boom" "RuntimeError" ∧
    (Agent.research_topic envBoom 0 st0 "X" .basic).2.2.2.length = 1 :=
  ⟨rfl, rfl⟩

/-- C7 amended: only the per-query search invocations are individually
wrapped, in both multi-step operations. In multi_query_search, per-query
failures do not abort: the synthesis call proceeds and, when it succeeds,
the result is success built from exactly the successful pairs, with no
failure marker; a raising synthesis call aborts the operation into an
overall failure. In research_topic, per-query failures do not abort
either: the report call proceeds with the partial evidence and, when it
succeeds, the result is success with exactly the successful pairs as
findings; a raising query-generation or report call aborts the operation
into an overall failure. -/
theorem partial_failure_semantics (env : Env) (k : Nat) (st : AgentState)
    (queries : List String) (topic : String) (depth : Agent.Depth) :
    (∀ t, env (k + queries.length) = .ok t →
      (Agent.multi_query_search env k st queries).1 =
        .success queries (Agent.successfulPairs env k queries) t queries.length) ∧
    (∀ e, env (k + queries.length) = .raise e →
      (Agent.multi_query_search env k st queries).1 =
        .failure queries e.msg e.typeName) ∧
    (∀ e, env k = .raise e →
      (Agent.research_topic env k st topic depth).1 =
        .failure topic e.msg e.typeName) ∧
    (∀ out rep, env k = .ok out →
      env (k + 1 + (Agent.parseQueries out).length) = .ok rep →
      (Agent.research_topic env k st topic depth).1 =
        .success topic depth (Agent.parseQueries out)
          (Agent.successfulPairs env (k + 1) (Agent.parseQueries out)) rep
          (Agent.context_map depth) (Agent.parseQueries out).length) ∧
    (∀ out e, env k = .ok out →
      env (k + 1 + (Agent.parseQueries out).length) = .raise e →
      (Agent.research_topic env k st topic depth).1 =
        .failure topic e.msg e.typeName) := by
  refine ⟨?_, ?_, ?_, ?_, ?_⟩
  · intro t ht
    have hp := searchLoop_pairs env none queries k st
    have hk := searchLoop_counter env none queries k st
    unfold Agent.multi_query_search
    simp [hp, hk, ht]
  · intro e hee
    have hk := searchLoop_counter env none queries k st
    unfold Agent.multi_query_search
    simp [hk, hee]
  · intro e hee
    unfold Agent.research_topic
    simp [hee]
  · intro out rep hok hrep
    have hp := searchLoop_pairs env (some (Agent.context_map depth))
      (Agent.parseQueries out) (k + 1) st
    have hk := searchLoop_counter env (some (Agent.context_map depth))
      (Agent.parseQueries out) (k + 1) st
    unfold Agent.research_topic
    simp [hok, hp, hk, hrep]
  · intro out e hok hrep
    have hk := searchLoop_counter env (some (Agent.context_map depth))
      (Agent.parseQueries out) (k + 1) st
    unfold Agent.research_topic
    simp [hok, hk, hrep]

/-- C7 amended witness: concrete evaluations exercising all five parts:
a dropped per-query failure with a successful synthesis, a synthesis
failure aborting multi_query_search, a query-generation failure aborting
research_topic, per-query evidence flowing into a successful report, and a
report failure aborting research_topic. -/
theorem partial_failure_semantics_witness :
    (Agent.multi_query_search envMix 0 st0 ["a"]).1 = .success ["a"] [] "ok" 1 ∧
    (Agent.multi_query_search envOkThenBoom 0 st0 ["a"]).1 =
      .failure ["a"] "boom" "RuntimeError" ∧
    (Agent.research_topic envMix 0 st0 "X" .basic).1 =
      .failure "X" "boom" "RuntimeError" ∧
    (Agent.research_topic envOk 0 st0 "X" .basic).1 =
      .success "X" .basic ["ok"] [("ok", "ok")] "ok" "low" 1 ∧
    (Agent.research_topic envOkThenBoom 0 st0 "X" .basic).1 =
      .failure "X" "boom" "RuntimeError" := by
  have h1 := partial_failure_semantics envMix 0 st0 ["a"] "X" Agent.Depth.basic
  have h2 := partial_failure_semantics envOkThenBoom 0 st0 ["a"] "X" Agent.Depth.basic
  have h3 := partial_failure_semantics envOk 0 st0 ["a"] "X" Agent.Depth.basic
  refine ⟨?_, h2.2.1 ⟨"boom", "RuntimeError"⟩ rfl,
    h1.2.2.1 ⟨"boom", "RuntimeError"⟩ rfl, ?_,
    h2.2.2.2.2 "ok" ⟨"boom", "RuntimeError"⟩ rfl rfl⟩
  · simpa [Agent.successfulPairs, envMix] using h1.1 "ok" rfl
  · have hq : Agent.parseQueries "ok" = ["ok"] := by rfl
    have hd := h3.2.2.2.1 "ok" "ok" rfl rfl
    rw [hq] at hd
    simpa [Agent.successfulPairs, envOk, Agent.context_map] using hd

/-- C10: in the minimal app, a /search request with a context size other
than "medium" replaces the process-wide agent toolset with a web-search
tool at that size; the replacement is never restored, so a later /search
request at "medium" (the value an omitted override defaults to) and a
later /chat request are both issued with the last non-medium tool, and the
state still holds it afterwards. -/
theorem wapp_context_override_sticky (env env2 : Env) (k k2 : Nat)
    (q q2 : String) (c : String) (h : c ≠ "medium") :
    (WApp.search env k WApp.initState ⟨q, some c⟩).2.1 = ⟨[.webSearch c]⟩ ∧
    (WApp.search env2 k2 ⟨[.webSearch c]⟩ ⟨q2, some "medium"⟩).2.2.2 =
      [⟨q2, [.webSearch c]⟩] ∧
    (WApp.search env2 k2 ⟨[.webSearch c]⟩ ⟨q2, some "medium"⟩).2.1 =
      ⟨[.webSearch c]⟩ ∧
    (WApp.chat env2 k2 ⟨[.webSearch c]⟩ q2).2.2.2 = [⟨q2, [.webSearch c]⟩] := by
  refine ⟨?_, ?_, ?_, ?_⟩
  · cases he : env k <;> simp [WApp.search, he, h]
  · cases he : env2 k2 <;> simp [WApp.search, he]
  · cases he : env2 k2 <;> simp [WApp.search, he]
  · cases he : env2 k2 <;> simp [WApp.chat, he]

/-- C10 witness: concrete evaluation with a "high" override followed by a
"medium" request. -/
theorem wapp_context_override_sticky_witness :
    (WApp.search envOk 0 WApp.initState ⟨"q", some "high"⟩).2.1 =
      ⟨[.webSearch "high"]⟩ ∧
    (WApp.search envOk 1 ⟨[.webSearch "high"]⟩ ⟨"r", some "medium"⟩).2.2.2 =
      [⟨"r", [.webSearch "high"]⟩] := by
  have h := wapp_context_override_sticky envOk envOk 0 1 "q" "r" "high" (by simp)
  exact ⟨h.1, h.2.1⟩

end SearchAgent
